import Mathlib

/-
Verification of the openredact-app backend orchestration and persistence layer.

The Python sources embedded here are src/backend/app/storage.py and
src/backend/app/endpoints.py. File-backed persistence is modelled by passing
the persisted collection (the parsed content of the backing JSON file) as an
explicit state argument; a storage operation returns the boolean the Python
function returns together with the state after the operation (the state is
unchanged exactly when the Python code performs no write). Disk-level
behaviour of load_json_file is modelled separately by a BackingFile record
describing what the loader observes: existence, byte size, readability of the
opened handle, and the JSON parse outcome.

Python str.lower and str.strip are embedded as structural functions over the
character list (ASCII case mapping via Char.toLower, whitespace via
Char.isWhitespace), so that concrete instances evaluate inside the kernel.
-/

namespace OpenRedact

/-- Embedding of Python str.lower (ASCII case mapping). -/
def pyLower (s : String) : String :=
  String.mk (s.data.map Char.toLower)

/-- Embedding of Python str.strip with no argument: remove leading and
trailing whitespace. -/
def pyStrip (s : String) : String :=
  String.mk (((s.data.dropWhile Char.isWhitespace).reverse.dropWhile Char.isWhitespace).reverse)

/-- storage.py line 19: maximum size in bytes of a backing file. -/
def MAX_FILE_SIZE : Nat := 10 * 1024 * 1024

/-- storage.py line 20: maximum number of whitelist entries. -/
def MAX_WHITELIST_ENTRIES : Nat := 10000

/-- storage.py line 21: maximum number of stored templates. -/
def MAX_TEMPLATES : Nat := 1000

/-- JSON values, the data read from and written to the backing files. -/
inductive Json where
  | null : Json
  | bool (b : Bool) : Json
  | num (n : Int) : Json
  | str (s : String) : Json
  | arr (xs : List Json) : Json
  | obj (kvs : List (String × Json)) : Json

/-- What load_json_file observes about a backing file: whether the path
exists, its byte size, whether opening and reading it succeeds, and the JSON
parse outcome (none models a json.JSONDecodeError). -/
structure BackingFile where
  present : Bool
  size : Nat
  readable : Bool
  parsed : Option Json

/-- storage.py lines 30 to 48: load a JSON file, returning the caller
supplied default when the file is absent, oversized, unreadable (the generic
except branch) or not valid JSON. -/
def load_json_file (f : BackingFile) (default : Json) : Json :=
  if f.present then
    if f.size > MAX_FILE_SIZE then default
    else if f.readable then
      match f.parsed with
      | some v => v
      | none => default
    else default
  else default

namespace WhitelistStorage

/-- storage.py lines 66 to 75: WhitelistStorage.get_all at the disk level.
The default passed to load_json_file is the empty list; a non-list top level
value is replaced by the empty list; the result is truncated to
MAX_WHITELIST_ENTRIES. -/
def get_all_file (f : BackingFile) : List Json :=
  match load_json_file f (Json.arr []) with
  | Json.arr entries => entries.take MAX_WHITELIST_ENTRIES
  | _ => []

/-- WhitelistStorage.get_all over an already well-shaped persisted list of
strings: only the truncation to MAX_WHITELIST_ENTRIES remains. -/
def get_all (st : List String) : List String :=
  st.take MAX_WHITELIST_ENTRIES

/-- storage.py lines 77 to 87: WhitelistStorage.add. Reject when the loaded
whitelist is at capacity; report success without writing when the entry is
already present; otherwise append and write. -/
def add (st : List String) (entry : String) : Bool × List String :=
  let whitelist := get_all st
  if whitelist.length ≥ MAX_WHITELIST_ENTRIES then (false, st)
  else if whitelist.contains entry then (true, st)
  else (true, whitelist ++ [entry])

/-- storage.py lines 89 to 96: WhitelistStorage.remove. Python list.remove
deletes the first occurrence; removal of a non-member reports success without
writing. -/
def remove (st : List String) (entry : String) : Bool × List String :=
  let whitelist := get_all st
  if whitelist.contains entry then (true, whitelist.erase entry)
  else (true, st)

/-- storage.py lines 98 to 104: WhitelistStorage.set_all. Reject when the
proposed list exceeds capacity, otherwise write it verbatim. -/
def set_all (st : List String) (entries : List String) : Bool × List String :=
  if entries.length > MAX_WHITELIST_ENTRIES then (false, st)
  else (true, entries)

end WhitelistStorage

/-- Association lists standing for Python dicts keyed by strings
(insertion-ordered, distinct keys). -/
abbrev StrDict (α : Type) := List (String × α)

/-- Python `key in dict`. -/
def dictContains {α : Type} (d : StrDict α) (k : String) : Bool :=
  d.any (fun kv => kv.1 == k)

/-- Python `dict[key] = v`: replace the value in place when the key exists,
otherwise append the new binding at the end. -/
def dictInsert {α : Type} (d : StrDict α) (k : String) (v : α) : StrDict α :=
  if dictContains d k then d.map (fun kv => if kv.1 == k then (k, v) else kv)
  else d ++ [(k, v)]

/-- Python `dict.update(other)`: insert the bindings of other left to right. -/
def dictUpdate {α : Type} (d other : StrDict α) : StrDict α :=
  other.foldl (fun acc kv => dictInsert acc kv.1 kv.2) d

/-- Python `dict.get(key)`. -/
def dictGet {α : Type} (d : StrDict α) (k : String) : Option α :=
  (d.find? (fun kv => kv.1 == k)).map Prod.snd

namespace TemplateStorage

/-- storage.py lines 110 to 122: TemplateStorage.get_all at the disk level.
The default is the empty dict; a non-dict top level value is replaced by the
empty dict; a dict beyond MAX_TEMPLATES is truncated with a warning. -/
def get_all_file (f : BackingFile) : StrDict Json :=
  match load_json_file f (Json.obj []) with
  | Json.obj templates =>
      if templates.length > MAX_TEMPLATES then templates.take MAX_TEMPLATES
      else templates
  | _ => []

/-- TemplateStorage.get_all over an already well-shaped persisted dict:
only the truncation to MAX_TEMPLATES remains. -/
def get_all {α : Type} (st : StrDict α) : StrDict α :=
  if st.length > MAX_TEMPLATES then st.take MAX_TEMPLATES
  else st

/-- storage.py lines 124 to 128: TemplateStorage.get. -/
def get {α : Type} (st : StrDict α) (template_id : String) : Option α :=
  dictGet (get_all st) template_id

/-- storage.py lines 130 to 138: TemplateStorage.save. Reject when the id is
new and the loaded collection is at capacity; otherwise insert and write. -/
def save {α : Type} (st : StrDict α) (template_id : String) (template_data : α) :
    Bool × StrDict α :=
  let templates := get_all st
  if ¬ dictContains templates template_id = true ∧ templates.length ≥ MAX_TEMPLATES then
    (false, st)
  else (true, dictInsert templates template_id template_data)

/-- storage.py lines 140 to 147: TemplateStorage.delete. -/
def delete {α : Type} (st : StrDict α) (template_id : String) : Bool × StrDict α :=
  let templates := get_all st
  if dictContains templates template_id then
    (true, templates.filter (fun kv => ¬ kv.1 == template_id))
  else (true, st)

/-- storage.py lines 149 to 162: TemplateStorage.import_templates. The
isinstance dict check is enforced by the type. The capacity check adds the
two lengths; ids present on both sides are counted twice. -/
def import_templates {α : Type} (st imported_templates : StrDict α) : Bool × StrDict α :=
  let templates := get_all st
  let total_count := templates.length + imported_templates.length
  if total_count > MAX_TEMPLATES then (false, st)
  else (true, dictUpdate templates imported_templates)

end TemplateStorage

/-- Outcome of an endpoint handler: a value, or an HTTPException with a
status code and a detail string. -/
inductive ApiResult (α : Type) where
  | ok (value : α) : ApiResult α
  | httpError (status : Nat) (detail : String) : ApiResult α

/-- schemas.py SuccessResponse. -/
structure SuccessResponse where
  success : Bool
  message : Option String

/-- schemas.py Pii: a recognized PII span. -/
structure Pii where
  start_char : Nat
  end_char : Nat
  tag : String
  text : String
  score : Float
  recognizer : String
  start_tok : Nat
  end_tok : Nat

/-- One element of the list returned by the external Anonymizer.anonymize
call: the span text after the mechanism ran, the span id, and whether the
mechanism marked the span as modified. -/
structure AnonymizerOutputPii where
  text : String
  id : String
  modified : Bool

/-- schemas.py AnonymizedPii: one element of the anonymize response. -/
structure AnonymizedPii where
  text : String
  id : String

/-- The external anonymizer either raises a ParserError on some span or
returns a list of output spans. -/
inductive AnonymizerRun where
  | parseFailure : AnonymizerRun
  | finished (outs : List AnonymizerOutputPii) : AnonymizerRun

/-- endpoints.py lines 50 to 62: the anonymize endpoint. The external
anonymizer run is passed in as data. A ParserError maps to a 400; a
mismatch between the number of modified outputs and the number of input
spans maps to a 400 Invalid Config; otherwise the modified outputs are
returned. -/
def anonymize (piis : List Pii) (run : AnonymizerRun) : ApiResult (List AnonymizedPii) :=
  match run with
  | AnonymizerRun.parseFailure => ApiResult.httpError 400 "Error parsing a pii"
  | AnonymizerRun.finished outs =>
    let anonymized_piis :=
      (outs.filter (fun p => p.modified)).map (fun p => AnonymizedPii.mk p.text p.id)
    if anonymized_piis.length ≠ piis.length then ApiResult.httpError 400 "Invalid Config"
    else ApiResult.ok anonymized_piis

/-- endpoints.py lines 146 to 156: the whitelist filtering loop inside the
find_piis endpoint. Whitelist entries are lower-cased (not stripped); each
candidate text is lower-cased and stripped; candidates whose normalized text
occurs in the lower-cased whitelist are dropped, the rest are appended in
order. -/
def find_piis_filter (ents : List Pii) (whitelist : List String) : List Pii :=
  let whitelist_lower := whitelist.map pyLower
  ents.foldl
    (fun filtered pii =>
      if whitelist_lower.contains (pyStrip (pyLower pii.text)) then filtered
      else filtered ++ [pii]) []

/-- endpoints.py lines 223 to 231: the add whitelist entry endpoint. An
empty or whitespace-only entry maps to a 400; otherwise the stripped entry
is handed to WhitelistStorage.add; a false from storage maps to a 500. -/
def add_whitelist_entry (st : List String) (entry : String) :
    ApiResult SuccessResponse × List String :=
  if entry = "" ∨ pyStrip entry = "" then
    (ApiResult.httpError 400 "Entry cannot be empty", st)
  else
    let result := WhitelistStorage.add st (pyStrip entry)
    if result.1 then (ApiResult.ok ⟨true, some "Entry added successfully"⟩, result.2)
    else (ApiResult.httpError 500 "Failed to add entry", result.2)

/-- schemas.py TemplateData. The two mechanism fields are opaque JSON
payloads. -/
structure TemplateData where
  name : String
  description : Option String
  default_mechanism : Json
  mechanisms_by_tag : StrDict Json
  created_at : Option String
  updated_at : Option String

/-- Python falsiness of an optional string: None and the empty string are
falsy. -/
def falsyOptStr (s : Option String) : Bool :=
  match s with
  | none => true
  | some v => v == ""

/-- endpoints.py lines 297 to 312: the save template endpoint. An empty or
whitespace-only id maps to a 400. created_at is set to the current time when
the submitted payload carries no truthy created_at, otherwise the submitted
value is kept; updated_at is always set to the current time. The stamped
record is handed to TemplateStorage.save; a false from storage maps to a
500. -/
def save_template (st : StrDict TemplateData) (template_id : String)
    (template : TemplateData) (now : String) :
    ApiResult SuccessResponse × StrDict TemplateData :=
  if template_id = "" ∨ pyStrip template_id = "" then
    (ApiResult.httpError 400 "Template ID cannot be empty", st)
  else
    let withCreated :=
      if falsyOptStr template.created_at then { template with created_at := some now }
      else template
    let template_dict := { withCreated with updated_at := some now }
    let result := TemplateStorage.save st template_id template_dict
    if result.1 then (ApiResult.ok ⟨true, some "Template saved successfully"⟩, result.2)
    else (ApiResult.httpError 500 "Failed to save template", result.2)

/-- The concrete recognized span used in the find_piis filter examples. -/
def acmePii : Pii :=
  { start_char := 0, end_char := 11, tag := "ORG", text := " Acme Corp ",
    score := 1.0, recognizer := "ner", start_tok := 0, end_tok := 2 }

/-- A template payload carrying no created_at. -/
def demoTemplate : TemplateData :=
  { name := "Medical Template", description := some "",
    default_mechanism := Json.obj [("mechanism", Json.str "suppression")],
    mechanisms_by_tag := [], created_at := none, updated_at := none }

/-- A minimal template body at the storage level. -/
def tinyTemplate : Json :=
  Json.obj [("name", Json.str "t")]

/-- A template collection holding exactly MAX_TEMPLATES entries with distinct
ids. -/
def fullTemplates : StrDict Json :=
  (List.range MAX_TEMPLATES).map (fun i => (Nat.repr i, tinyTemplate))

/-- A present, readable, small backing file whose content is not valid JSON. -/
def corruptFile : BackingFile :=
  { present := true, size := 5, readable := true, parsed := none }

/-- Helper: a left fold that either keeps the accumulator or appends the
current element equals the accumulator followed by a filter. -/
theorem foldl_append_filter {α : Type} (skip : α → Bool) :
    ∀ (l acc : List α),
      l.foldl (fun a x => if skip x then a else a ++ [x]) acc =
        acc ++ l.filter (fun x => ! skip x)
  | [], acc => by simp
  | x :: xs, acc => by
    cases h : skip x <;>
      simp [List.filter_cons, h, foldl_append_filter skip xs]

/-- C1: For every anonymization request, the response contains exactly one
anonymized output per input span, or the whole request fails with a 400
error, either for a parse failure or for an Invalid Config count mismatch; a
response with fewer outputs than input spans is never returned. -/
theorem anonymize_counts_match_or_client_error (piis : List Pii) (run : AnonymizerRun) :
    (∃ outs, anonymize piis run = ApiResult.ok outs ∧ outs.length = piis.length) ∨
    anonymize piis run = ApiResult.httpError 400 "Error parsing a pii" ∨
    anonymize piis run = ApiResult.httpError 400 "Invalid Config" := by
  cases run with
  | parseFailure => exact Or.inr (Or.inl rfl)
  | finished outs =>
    by_cases h : (outs.filter (fun p => p.modified)).length = piis.length
    · refine Or.inl ⟨(outs.filter (fun p => p.modified)).map
        (fun p => AnonymizedPii.mk p.text p.id), ?_, ?_⟩
      · simp [anonymize, h]
      · simp [h]
    · exact Or.inr (Or.inr (by simp [anonymize, h]))

/-- C5 counterexample: the add whitelist entry endpoint strips outer
whitespace before storing, so the persisted string differs from the
submitted one. -/
theorem add_whitelist_entry_strips_counterexample :
    (add_whitelist_entry [] " Acme Corp ").2 = ["Acme Corp"] ∧
    (" Acme Corp " : String) ≠ "Acme Corp" := by
  exact ⟨by decide, by decide⟩

/-- C7 counterexample: set_all persists the submitted list verbatim, so a
bulk replace can store duplicate entries. -/
theorem set_all_duplicates_counterexample :
    WhitelistStorage.set_all [] ["a", "a"] = (true, ["a", "a"]) ∧
    ¬ (["a", "a"] : List String).Nodup := by
  exact ⟨by decide, by decide⟩

/-- C3 counterexample: re-saving a template whose payload carries no
created_at overwrites the stored created_at with the new time. -/
theorem save_template_overwrites_created_at_counterexample :
    (dictGet (save_template [] "medical-1" demoTemplate "T1").2 "medical-1").map
        TemplateData.created_at = some (some "T1") ∧
    (dictGet (save_template (save_template [] "medical-1" demoTemplate "T1").2
          "medical-1" demoTemplate "T2").2 "medical-1").map
        TemplateData.created_at = some (some "T2") ∧
    ("T1" : String) ≠ "T2" := by
  exact ⟨by decide, by decide, by decide⟩

/-- C4 counterexample: outer whitespace on the whitelist side defeats the
filter. The candidate text and the whitelist entry agree after lower-casing
and stripping both sides, yet the candidate is kept, because the code strips
only the candidate text and not the whitelist entry. -/
theorem find_piis_filter_whitelist_whitespace_counterexample :
    find_piis_filter [acmePii] [" acme corp "] = [acmePii] ∧
    pyStrip (pyLower acmePii.text) = pyStrip (pyLower " acme corp ") := by
  exact ⟨rfl, by decide⟩

/-- C4 amended: filtering returns exactly the subsequence, in order, of
spans whose lower-cased and stripped text is not equal to any lower-cased
but unstripped whitelist entry; matching is exact-string after this
one-sided normalization, never substring or fuzzy. Insensitivity to case
and whitespace holds on the candidate side only, not when the whitelist
entry carries the extra whitespace. -/
theorem find_piis_filter_characterization (ents : List Pii) (whitelist : List String) :
    find_piis_filter ents whitelist =
      ents.filter
        (fun pii => ! (whitelist.map pyLower).contains (pyStrip (pyLower pii.text))) ∧
    (find_piis_filter ents whitelist).Sublist ents := by
  have h := foldl_append_filter
    (fun pii => (whitelist.map pyLower).contains (pyStrip (pyLower pii.text))) ents []
  constructor
  · simpa [find_piis_filter] using h
  · have h2 : find_piis_filter ents whitelist =
        ents.filter
          (fun pii => ! (whitelist.map pyLower).contains (pyStrip (pyLower pii.text))) := by
      simpa [find_piis_filter] using h
    rw [h2]
    exact List.filter_sublist ents

/-- Helper: get_all is the identity on a persisted whitelist within the
capacity bound. -/
theorem whitelist_get_all_of_le (st : List String)
    (h : st.length ≤ MAX_WHITELIST_ENTRIES) :
    WhitelistStorage.get_all st = st :=
  List.take_of_length_le h

/-- Helper: add rejects without writing when the loaded whitelist is at
capacity. -/
theorem whitelist_add_at_capacity (st : List String) (entry : String)
    (h : MAX_WHITELIST_ENTRIES ≤ (WhitelistStorage.get_all st).length) :
    WhitelistStorage.add st entry = (false, st) := by
  unfold WhitelistStorage.add
  simp [ge_iff_le, h]

/-- Helper: add appends and reports success when the whitelist is below
capacity and the entry is new. -/
theorem whitelist_add_of_new (st : List String) (entry : String)
    (hlen : st.length < MAX_WHITELIST_ENTRIES) (hmem : entry ∉ st) :
    WhitelistStorage.add st entry = (true, st ++ [entry]) := by
  unfold WhitelistStorage.add
  rw [whitelist_get_all_of_le st (le_of_lt hlen)]
  simp [Nat.not_le_of_lt hlen, hmem]

/-- Helper: add reports success without writing when the whitelist is below
capacity and the entry is already present. -/
theorem whitelist_add_of_mem (st : List String) (entry : String)
    (hlen : st.length < MAX_WHITELIST_ENTRIES) (hmem : entry ∈ st) :
    WhitelistStorage.add st entry = (true, st) := by
  unfold WhitelistStorage.add
  rw [whitelist_get_all_of_le st (le_of_lt hlen)]
  simp [Nat.not_le_of_lt hlen, hmem]

/-- C10: For every stored whitelist strictly below capacity and every entry
not already present, a successful add persists exactly the previous list with
the new entry appended at the end, leaving all prior entries and their order
unchanged. -/
theorem whitelist_add_appends (st : List String) (entry : String)
    (hlen : st.length < MAX_WHITELIST_ENTRIES) (hmem : entry ∉ st) :
    WhitelistStorage.add st entry = (true, st ++ [entry]) :=
  whitelist_add_of_new st entry hlen hmem

/-- C10 witness: the general append theorem applied at a concrete state and
entry. -/
theorem whitelist_add_appends_witness :
    (["x"] : List String).length < MAX_WHITELIST_ENTRIES ∧
    ("Bob" : String) ∉ (["x"] : List String) ∧
    WhitelistStorage.add ["x"] "Bob" = (true, ["x"] ++ ["Bob"]) :=
  ⟨by decide, by decide, whitelist_add_appends ["x"] "Bob" (by decide) (by decide)⟩

/-- C6: With the stored whitelist at MAX_WHITELIST_ENTRIES entries, adding
one more entry returns failure and leaves the stored collection unchanged;
replacing the whole whitelist with more than MAX_WHITELIST_ENTRIES entries
returns failure and leaves the prior stored state unchanged. -/
theorem whitelist_capacity_rejection (st : List String) (entry : String)
    (entries : List String)
    (hfull : st.length = MAX_WHITELIST_ENTRIES)
    (hover : MAX_WHITELIST_ENTRIES < entries.length) :
    WhitelistStorage.add st entry = (false, st) ∧
    WhitelistStorage.set_all st entries = (false, st) := by
  constructor
  · apply whitelist_add_at_capacity
    rw [whitelist_get_all_of_le st (le_of_eq hfull), hfull]
  · unfold WhitelistStorage.set_all
    simp [hover]

/-- C6 witness: the capacity rejection theorem applied at a whitelist of
exactly MAX_WHITELIST_ENTRIES entries and an oversize bulk update. -/
theorem whitelist_capacity_rejection_witness :
    (List.replicate MAX_WHITELIST_ENTRIES "a").length = MAX_WHITELIST_ENTRIES ∧
    MAX_WHITELIST_ENTRIES < (List.replicate (MAX_WHITELIST_ENTRIES + 1) "b").length ∧
    (WhitelistStorage.add (List.replicate MAX_WHITELIST_ENTRIES "a") "c" =
        (false, List.replicate MAX_WHITELIST_ENTRIES "a") ∧
      WhitelistStorage.set_all (List.replicate MAX_WHITELIST_ENTRIES "a")
          (List.replicate (MAX_WHITELIST_ENTRIES + 1) "b") =
        (false, List.replicate MAX_WHITELIST_ENTRIES "a")) :=
  ⟨by simp, by simp,
    whitelist_capacity_rejection (List.replicate MAX_WHITELIST_ENTRIES "a") "c"
      (List.replicate (MAX_WHITELIST_ENTRIES + 1) "b") (by simp) (by simp)⟩

/-- C8 counterexample: starting from a whitelist of MAX_WHITELIST_ENTRIES
minus one entries that does not contain the entry, the first add succeeds
and fills the whitelist to capacity, and the second add of the same entry
then reports failure rather than success, because the capacity check runs
before the membership check. -/
theorem whitelist_second_add_at_cap_counterexample :
    ("b" : String) ∉ List.replicate (MAX_WHITELIST_ENTRIES - 1) "a" ∧
    (WhitelistStorage.add (List.replicate (MAX_WHITELIST_ENTRIES - 1) "a") "b").1 = true ∧
    (WhitelistStorage.add
        (WhitelistStorage.add
          (List.replicate (MAX_WHITELIST_ENTRIES - 1) "a") "b").2 "b").1 = false := by
  have hmem : ("b" : String) ∉ List.replicate (MAX_WHITELIST_ENTRIES - 1) "a" := by
    simp [List.mem_replicate]
  have h1 : WhitelistStorage.add (List.replicate (MAX_WHITELIST_ENTRIES - 1) "a") "b" =
      (true, List.replicate (MAX_WHITELIST_ENTRIES - 1) "a" ++ ["b"]) :=
    whitelist_add_of_new _ _
      (by simp only [List.length_replicate, MAX_WHITELIST_ENTRIES]; omega) hmem
  have hlen1 : (List.replicate (MAX_WHITELIST_ENTRIES - 1) "a" ++ ["b"]).length
      = MAX_WHITELIST_ENTRIES := by
    simp only [List.length_append, List.length_replicate, List.length_cons,
      List.length_nil, MAX_WHITELIST_ENTRIES]
  have h2 : WhitelistStorage.add
      (List.replicate (MAX_WHITELIST_ENTRIES - 1) "a" ++ ["b"]) "b" =
      (false, List.replicate (MAX_WHITELIST_ENTRIES - 1) "a" ++ ["b"]) := by
    apply whitelist_add_at_capacity
    rw [whitelist_get_all_of_le _ (le_of_eq hlen1), hlen1]
  exact ⟨hmem, by rw [h1], by rw [h1, h2]⟩

/-- C8 amended: for every stored whitelist of size n strictly below
capacity not containing e, adding e twice yields a stored whitelist of size
n plus one, not n plus two, and the second add leaves the stored collection
unchanged; the second add reports success exactly when n plus one is still
strictly below MAX_WHITELIST_ENTRIES, and reports failure when the first add
filled the whitelist to exactly the capacity, since the capacity check runs
before the membership check. -/
theorem whitelist_add_twice (st : List String) (entry : String)
    (hlen : st.length < MAX_WHITELIST_ENTRIES) (hmem : entry ∉ st) :
    WhitelistStorage.add st entry = (true, st ++ [entry]) ∧
    (WhitelistStorage.add (st ++ [entry]) entry).2 = st ++ [entry] ∧
    ((WhitelistStorage.add (st ++ [entry]) entry).1 = true ↔
      st.length + 1 < MAX_WHITELIST_ENTRIES) ∧
    (st ++ [entry]).length = st.length + 1 := by
  have h1 := whitelist_add_of_new st entry hlen hmem
  have hlen1 : (st ++ [entry]).length = st.length + 1 := by simp
  by_cases h : st.length + 1 < MAX_WHITELIST_ENTRIES
  · have h2 : WhitelistStorage.add (st ++ [entry]) entry = (true, st ++ [entry]) := by
      apply whitelist_add_of_mem
      · rw [hlen1]; exact h
      · simp
    exact ⟨h1, by rw [h2], by rw [h2]; simpa using h, hlen1⟩
  · have hfull : (st ++ [entry]).length = MAX_WHITELIST_ENTRIES := by
      rw [hlen1]; omega
    have h2 : WhitelistStorage.add (st ++ [entry]) entry = (false, st ++ [entry]) := by
      apply whitelist_add_at_capacity
      rw [whitelist_get_all_of_le _ (le_of_eq hfull), hfull]
    exact ⟨h1, by rw [h2], by rw [h2]; simpa using h, hlen1⟩

/-- C8 witness: the amended double-add theorem applied at a small concrete
whitelist. -/
theorem whitelist_add_twice_witness :
    ([] : List String).length < MAX_WHITELIST_ENTRIES ∧
    ("x" : String) ∉ ([] : List String) ∧
    (WhitelistStorage.add [] "x" = (true, [] ++ ["x"]) ∧
      (WhitelistStorage.add ([] ++ ["x"]) "x").2 = [] ++ ["x"] ∧
      ((WhitelistStorage.add ([] ++ ["x"]) "x").1 = true ↔
        ([] : List String).length + 1 < MAX_WHITELIST_ENTRIES) ∧
      (([] : List String) ++ ["x"]).length = ([] : List String).length + 1) :=
  ⟨by decide, by decide, whitelist_add_twice [] "x" (by decide) (by decide)⟩

/-- C7 amended: starting from a duplicate-free stored whitelist, the add and
remove operations yield a duplicate-free stored whitelist, but the bulk
replace operation persists the submitted list verbatim within the capacity
bound, so it preserves duplicate-freedom only when the submitted list itself
is duplicate-free. -/
theorem whitelist_ops_nodup (st : List String) (entry : String)
    (entries : List String) (hnd : st.Nodup) :
    (WhitelistStorage.add st entry).2.Nodup ∧
    (WhitelistStorage.remove st entry).2.Nodup ∧
    (WhitelistStorage.set_all st entries).2 =
      (if MAX_WHITELIST_ENTRIES < entries.length then st else entries) := by
  have hwl : (WhitelistStorage.get_all st).Nodup :=
    hnd.sublist (List.take_sublist MAX_WHITELIST_ENTRIES st)
  refine ⟨?_, ?_, ?_⟩
  · unfold WhitelistStorage.add
    dsimp only
    split
    · exact hnd
    · split
      · exact hnd
      · rename_i hlt hmem
        simp only [Bool.not_eq_true] at hmem
        refine List.Nodup.append hwl (List.nodup_singleton entry) ?_
        intro a ha hb
        rw [List.mem_singleton] at hb
        subst hb
        exact absurd ha (by simpa using hmem)
  · unfold WhitelistStorage.remove
    dsimp only
    split
    · exact hwl.erase entry
    · exact hnd
  · unfold WhitelistStorage.set_all
    split <;> simp_all

/-- C7 witness: the duplicate-freedom theorem applied at a concrete
duplicate-free whitelist. -/
theorem whitelist_ops_nodup_witness :
    (["x"] : List String).Nodup ∧
    ((WhitelistStorage.add ["x"] "y").2.Nodup ∧
      (WhitelistStorage.remove ["x"] "y").2.Nodup ∧
      (WhitelistStorage.set_all ["x"] ["a", "a"]).2 =
        (if MAX_WHITELIST_ENTRIES < (["a", "a"] : List String).length
         then ["x"] else ["a", "a"])) :=
  ⟨by decide, whitelist_ops_nodup ["x"] "y" ["a", "a"] (by decide)⟩

/-- Helper: load_json_file returns the default on an absent, unreadable,
oversized or unparseable file. -/
theorem load_json_file_default (f : BackingFile) (d : Json)
    (h : f.present = false ∨ f.readable = false ∨ MAX_FILE_SIZE < f.size ∨
      f.parsed = none) :
    load_json_file f d = d := by
  unfold load_json_file
  rcases h with h | h | h | h <;> simp [h]

/-- Helper: load_json_file either returns the default or returns the parsed
content of the file. -/
theorem load_json_file_cases (f : BackingFile) (d : Json) :
    load_json_file f d = d ∨ f.parsed = some (load_json_file f d) := by
  unfold load_json_file
  by_cases hp : f.present = true
  · by_cases hs : f.size > MAX_FILE_SIZE
    · exact Or.inl (by simp [hp, hs])
    · by_cases hr : f.readable = true
      · cases hv : f.parsed with
        | some v => exact Or.inr (by simp [hp, hs, hr, hv])
        | none => exact Or.inl (by simp [hp, hs, hr, hv])
      · exact Or.inl (by simp [hp, hs, hr])
  · exact Or.inl (by simp [hp])

/-- C9: Loading a collection never fails the caller: for an absent,
unreadable or oversized backing file, for invalid JSON, and for a top level
value of the wrong shape, the whitelist loads as the empty list and the
template collection loads as the empty mapping; in particular a whitelist
backing file holding invalid JSON loads as the empty list. -/
theorem load_collection_returns_default (f : BackingFile) :
    ((f.present = false ∨ f.readable = false ∨ MAX_FILE_SIZE < f.size ∨
        (∀ xs, f.parsed ≠ some (Json.arr xs))) →
      WhitelistStorage.get_all_file f = []) ∧
    ((f.present = false ∨ f.readable = false ∨ MAX_FILE_SIZE < f.size ∨
        (∀ kvs, f.parsed ≠ some (Json.obj kvs))) →
      TemplateStorage.get_all_file f = []) ∧
    (f.parsed = none →
      WhitelistStorage.get_all_file f = [] ∧ TemplateStorage.get_all_file f = []) := by
  refine ⟨?_, ?_, ?_⟩
  · intro h
    unfold WhitelistStorage.get_all_file
    rcases h with h | h | h | h
    · rw [load_json_file_default f _ (Or.inl h)]; simp
    · rw [load_json_file_default f _ (Or.inr (Or.inl h))]; simp
    · rw [load_json_file_default f _ (Or.inr (Or.inr (Or.inl h)))]; simp
    · rcases load_json_file_cases f (Json.arr []) with hl | hl
      · rw [hl]; simp
      · cases hv : load_json_file f (Json.arr []) with
        | arr xs => rw [hv] at hl; exact absurd hl (h xs)
        | null => rfl
        | bool b => rfl
        | num n => rfl
        | str s => rfl
        | obj kvs => rfl
  · intro h
    unfold TemplateStorage.get_all_file
    rcases h with h | h | h | h
    · rw [load_json_file_default f _ (Or.inl h)]; simp
    · rw [load_json_file_default f _ (Or.inr (Or.inl h))]; simp
    · rw [load_json_file_default f _ (Or.inr (Or.inr (Or.inl h)))]; simp
    · rcases load_json_file_cases f (Json.obj []) with hl | hl
      · rw [hl]; simp
      · cases hv : load_json_file f (Json.obj []) with
        | obj kvs => rw [hv] at hl; exact absurd hl (h kvs)
        | null => rfl
        | bool b => rfl
        | num n => rfl
        | str s => rfl
        | arr xs => rfl
  · intro h
    constructor
    · unfold WhitelistStorage.get_all_file
      rw [load_json_file_default f _ (Or.inr (Or.inr (Or.inr h)))]
      simp
    · unfold TemplateStorage.get_all_file
      rw [load_json_file_default f _ (Or.inr (Or.inr (Or.inr h)))]
      simp

/-- C9 witness: the resilience theorem applied at a present, readable, small
backing file whose content is not valid JSON. -/
theorem load_collection_returns_default_witness :
    corruptFile.parsed = none ∧
    (WhitelistStorage.get_all_file corruptFile = [] ∧
      TemplateStorage.get_all_file corruptFile = []) :=
  ⟨rfl, (load_collection_returns_default corruptFile).2.2 rfl⟩

/-- Helper: inserting over an existing key keeps the dict length. -/
theorem dictInsert_length_of_contains {α : Type} (d : StrDict α) (k : String) (v : α)
    (h : dictContains d k = true) :
    (dictInsert d k v).length = d.length := by
  unfold dictInsert
  simp [h]

/-- Helper: an insert grows the dict by at most one binding. -/
theorem dictInsert_length_le {α : Type} (d : StrDict α) (k : String) (v : α) :
    (dictInsert d k v).length ≤ d.length + 1 := by
  unfold dictInsert
  split <;> simp

/-- Helper: an update grows the dict by at most the number of inserted
bindings. -/
theorem dictUpdate_length_le {α : Type} :
    ∀ (other d : StrDict α), (dictUpdate d other).length ≤ d.length + other.length
  | [], d => by simp [dictUpdate]
  | kv :: tl, d => by
    unfold dictUpdate
    simp only [List.foldl_cons, List.length_cons]
    have h1 := dictUpdate_length_le tl (dictInsert d kv.1 kv.2)
    have h2 := dictInsert_length_le d kv.1 kv.2
    unfold dictUpdate at h1
    omega

/-- Helper: looking up the key just written by the in-place replacement pass
yields the new value when the key was present, and nothing otherwise. -/
theorem dictGet_replace {α : Type} (k : String) (v : α) :
    ∀ (d : StrDict α),
      dictGet (d.map (fun kv => if kv.1 == k then (k, v) else kv)) k =
        if dictContains d k then some v else none
  | [] => by simp [dictGet, dictContains]
  | kv :: tl => by
    by_cases hk : (kv.1 == k) = true
    · have hmap : (kv :: tl).map (fun kv => if kv.1 == k then (k, v) else kv) =
          (k, v) :: tl.map (fun kv => if kv.1 == k then (k, v) else kv) := by
        rw [List.map_cons, if_pos hk]
      rw [dictGet, hmap, List.find?_cons_of_pos _ (by simp)]
      simp [dictContains, hk]
    · have hmap : (kv :: tl).map (fun kv => if kv.1 == k then (k, v) else kv) =
          kv :: tl.map (fun kv => if kv.1 == k then (k, v) else kv) := by
        rw [List.map_cons, if_neg hk]
      have ih := dictGet_replace k v tl
      rw [dictGet, hmap, List.find?_cons_of_neg _ (by simp [hk])]
      rw [dictGet] at ih
      simp only [dictContains, List.any_cons, hk, Bool.false_or] at ih ⊢
      exact ih

/-- Helper: looking up a key appended at the end of a dict that did not
contain it yields the appended value. -/
theorem dictGet_append_new {α : Type} (k : String) (v : α) :
    ∀ (d : StrDict α), dictContains d k = false →
      dictGet (d ++ [(k, v)]) k = some v
  | [], _ => by simp [dictGet]
  | kv :: tl, h => by
    have hk : (kv.1 == k) = false := by
      cases hb : (kv.1 == k) with
      | false => rfl
      | true => simp [dictContains, hb] at h
    have htl : dictContains tl k = false := by
      simp only [dictContains, List.any_cons, hk, Bool.false_or] at h
      exact h
    have ih := dictGet_append_new k v tl htl
    rw [dictGet, List.cons_append, List.find?_cons_of_neg _ (by simp [hk])]
    rw [dictGet] at ih
    exact ih

/-- Helper: looking up the inserted key yields the inserted value. -/
theorem dictGet_dictInsert {α : Type} (d : StrDict α) (k : String) (v : α) :
    dictGet (dictInsert d k v) k = some v := by
  unfold dictInsert
  by_cases h : dictContains d k = true
  · rw [if_pos h, dictGet_replace k v d, if_pos h]
  · rw [if_neg h, dictGet_append_new k v d (by simpa using h)]

/-- Helper: import_templates written as a single conditional. -/
theorem import_templates_spec {α : Type} (st imported : StrDict α) :
    TemplateStorage.import_templates st imported =
      (if MAX_TEMPLATES < (TemplateStorage.get_all st).length + imported.length
       then (false, st)
       else (true, dictUpdate (TemplateStorage.get_all st) imported)) := rfl

/-- C2 counterexample: a collection of exactly MAX_TEMPLATES templates and
an import of a single template whose id already exists. The union of the
two keyed by id still has MAX_TEMPLATES entries, so by the claim this
operation is accepted, yet the code rejects it, because the capacity check
adds the two lengths and counts the overlapping id twice. -/
theorem import_templates_union_counterexample :
    TemplateStorage.import_templates fullTemplates [(Nat.repr 0, tinyTemplate)] =
      (false, fullTemplates) ∧
    (dictUpdate fullTemplates [(Nat.repr 0, tinyTemplate)]).length = MAX_TEMPLATES := by
  have hlen : fullTemplates.length = MAX_TEMPLATES := by
    simp [fullTemplates]
  have hget : TemplateStorage.get_all fullTemplates = fullTemplates := by
    unfold TemplateStorage.get_all
    rw [hlen]
    simp
  have hc : dictContains fullTemplates (Nat.repr 0) = true := by
    unfold dictContains fullTemplates
    apply List.any_eq_true.mpr
    refine ⟨(Nat.repr 0, tinyTemplate), ?_, ?_⟩
    · exact List.mem_map.mpr ⟨0, by simp [List.mem_range, MAX_TEMPLATES], rfl⟩
    · simp
  constructor
  · rw [import_templates_spec, hget, hlen]
    have hl : ([(Nat.repr 0, tinyTemplate)] : StrDict Json).length = 1 := rfl
    rw [hl, if_pos (by omega : MAX_TEMPLATES < MAX_TEMPLATES + 1)]
  · have hupd : dictUpdate fullTemplates [(Nat.repr 0, tinyTemplate)] =
        dictInsert fullTemplates (Nat.repr 0) tinyTemplate := by
      simp only [dictUpdate, List.foldl_cons, List.foldl_nil]
    rw [hupd, dictInsert_length_of_contains _ _ _ hc, hlen]

/-- C2 amended: import_templates rejects, performing no write, exactly when
the length of the loaded existing collection plus the length of the imported
mapping exceeds MAX_TEMPLATES, with ids present on both sides counted twice
rather than unioned; otherwise it writes the merged collection, which then
respects the capacity bound. In particular an import whose ids all already
exist in a full collection is rejected, not accepted. -/
theorem import_templates_sum_capacity (st imported : StrDict Json)
    (hst : st.length ≤ MAX_TEMPLATES) :
    (MAX_TEMPLATES < st.length + imported.length →
      TemplateStorage.import_templates st imported = (false, st)) ∧
    (st.length + imported.length ≤ MAX_TEMPLATES →
      TemplateStorage.import_templates st imported = (true, dictUpdate st imported) ∧
      (dictUpdate st imported).length ≤ MAX_TEMPLATES) := by
  have hget : TemplateStorage.get_all st = st := by
    unfold TemplateStorage.get_all
    rw [if_neg (by omega)]
  constructor
  · intro h
    rw [import_templates_spec, hget, if_pos h]
  · intro h
    rw [import_templates_spec, hget, if_neg (by omega)]
    exact ⟨rfl, le_trans (dictUpdate_length_le imported st) h⟩

/-- C2 witness: the amended import theorem applied at a small existing
collection and a small disjoint import. -/
theorem import_templates_sum_capacity_witness :
    ([("a", tinyTemplate)] : StrDict Json).length ≤ MAX_TEMPLATES ∧
    ([("a", tinyTemplate)] : StrDict Json).length +
        ([("b", tinyTemplate)] : StrDict Json).length ≤ MAX_TEMPLATES ∧
    (TemplateStorage.import_templates [("a", tinyTemplate)] [("b", tinyTemplate)] =
        (true, dictUpdate [("a", tinyTemplate)] [("b", tinyTemplate)]) ∧
      (dictUpdate [("a", tinyTemplate)]
          ([("b", tinyTemplate)] : StrDict Json)).length ≤ MAX_TEMPLATES) :=
  ⟨by decide, by decide,
    (import_templates_sum_capacity [("a", tinyTemplate)] [("b", tinyTemplate)]
      (by decide)).2 (by decide)⟩

/-- Helper: TemplateStorage.save succeeds and inserts whenever the id is
already present or the loaded collection is below capacity. -/
theorem template_save_success {α : Type} (st : StrDict α) (k : String) (v : α)
    (hcap : dictContains (TemplateStorage.get_all st) k = true ∨
      (TemplateStorage.get_all st).length < MAX_TEMPLATES) :
    TemplateStorage.save st k v = (true, dictInsert (TemplateStorage.get_all st) k v) := by
  unfold TemplateStorage.save
  dsimp only
  rw [if_neg ?hcond]
  case hcond =>
    rintro ⟨h1, h2⟩
    rcases hcap with h | h
    · exact h1 h
    · omega

/-- C3 amended: on every successful save, the stored created_at is taken
from the submitted payload when the payload carries a non-empty created_at,
and is set to the current time otherwise; updated_at is set to the current
time on every save. A later save of the same id therefore overwrites the
stored created_at with the new time unless the caller echoes the stored
created_at back in the payload. -/
theorem save_template_timestamps (st : StrDict TemplateData) (template_id : String)
    (template : TemplateData) (now : String)
    (hid : ¬ (template_id = "" ∨ pyStrip template_id = ""))
    (hcap : dictContains (TemplateStorage.get_all st) template_id = true ∨
      (TemplateStorage.get_all st).length < MAX_TEMPLATES) :
    (save_template st template_id template now).1 =
      ApiResult.ok ⟨true, some "Template saved successfully"⟩ ∧
    dictGet (save_template st template_id template now).2 template_id =
      some { template with
              created_at := (if falsyOptStr template.created_at then some now
                             else template.created_at),
              updated_at := some now } := by
  unfold save_template
  rw [if_neg hid]
  dsimp only
  rw [template_save_success st template_id _ hcap]
  rw [if_pos (rfl : true = true)]
  dsimp only
  refine ⟨rfl, ?_⟩
  rw [dictGet_dictInsert]
  by_cases hc : falsyOptStr template.created_at = true
  · simp only [if_pos hc]
  · simp only [if_neg hc]

/-- C3 witness: the amended timestamp theorem applied at the empty
collection, a payload with no created_at, and a concrete time. -/
theorem save_template_timestamps_witness :
    (¬ (("tpl" : String) = "" ∨ pyStrip "tpl" = "")) ∧
    (TemplateStorage.get_all ([] : StrDict TemplateData)).length < MAX_TEMPLATES ∧
    ((save_template [] "tpl" demoTemplate "T0").1 =
        ApiResult.ok ⟨true, some "Template saved successfully"⟩ ∧
      dictGet (save_template [] "tpl" demoTemplate "T0").2 "tpl" =
        some { demoTemplate with
                created_at := (if falsyOptStr demoTemplate.created_at then some "T0"
                               else demoTemplate.created_at),
                updated_at := some "T0" }) :=
  ⟨by decide, by decide,
    save_template_timestamps [] "tpl" demoTemplate "T0" (by decide) (Or.inr (by decide))⟩

/-- C5 amended: the add entry endpoint stores the stripped form of the
submitted entry: for every entry whose stripped form is non-empty and new to
a below-capacity whitelist, the persisted whitelist is the previous list
with the stripped entry appended; casing is retained, outer whitespace is
not, so the submitted string is persisted unmodified exactly when it carries
no outer whitespace. -/
theorem add_whitelist_entry_stores_trimmed (st : List String) (entry : String)
    (hne : pyStrip entry ≠ "")
    (hlen : st.length < MAX_WHITELIST_ENTRIES)
    (hmem : pyStrip entry ∉ st) :
    (add_whitelist_entry st entry).1 =
      ApiResult.ok ⟨true, some "Entry added successfully"⟩ ∧
    (add_whitelist_entry st entry).2 = st ++ [pyStrip entry] := by
  have hni : ¬ (entry = "" ∨ pyStrip entry = "") := by
    rintro (h | h)
    · subst h
      exact hne rfl
    · exact hne h
  unfold add_whitelist_entry
  rw [if_neg hni]
  dsimp only
  rw [whitelist_add_of_new st (pyStrip entry) hlen hmem]
  exact ⟨rfl, rfl⟩

/-- C5 witness: the amended trimming theorem applied at the empty whitelist
and an entry with outer whitespace. -/
theorem add_whitelist_entry_stores_trimmed_witness :
    pyStrip " Bob " ≠ "" ∧
    ([] : List String).length < MAX_WHITELIST_ENTRIES ∧
    pyStrip " Bob " ∉ ([] : List String) ∧
    ((add_whitelist_entry [] " Bob ").1 =
        ApiResult.ok ⟨true, some "Entry added successfully"⟩ ∧
      (add_whitelist_entry [] " Bob ").2 = [] ++ [pyStrip " Bob "]) :=
  ⟨by decide, by decide, by decide,
    add_whitelist_entry_stores_trimmed [] " Bob " (by decide) (by decide) (by decide)⟩

end OpenRedact
